import Mathlib

/-!
Shallow embedding of the finite-fault Green's-function machinery in
src/src/ffi.py: the PatchMap/FaultOrdering bookkeeping, the FaultGeometry
lookups, the SeismicGFLibrary state machine (setup / put / stacking with the
eager numpy backend and the lazy theano backend), and the per-axis patch
counting of discretize_sources.  Machine floats are modelled as rationals;
Python exceptions are modelled as an explicit error type through Except.
-/

/-- Error kinds raised by the Python code paths modelled here.  Each value
stands for the exception class the interpreter would raise. -/
inductive PyErr where
  | typeError
  | valueError
  | keyError
  | indexError
  | attributeError
  | gfLibraryError
  | faultGeometryError
deriving DecidableEq, Repr

/-- Boolean success test for an Except value. -/
def isOkB {α : Type} : Except PyErr α → Bool
  | Except.ok _ => true
  | Except.error _ => false

/-- PatchMap namedtuple (ffi.py line 23): count (ordinal of the subfault),
slc (a Python slice, modelled by its start and stop), shp = (npw, npl), and
npatches. -/
structure PatchMap where
  count : ℕ
  slcStart : ℕ
  slcStop : ℕ
  shp : ℕ × ℕ
  npatches : ℕ
deriving DecidableEq, Repr

instance : Inhabited PatchMap := ⟨⟨0, 0, 0, (0, 0), 0⟩⟩

/-- FaultOrdering state (ffi.py lines 281-307): the vmap list of PatchMaps
and the total patch count. -/
structure FaultOrdering where
  vmap : List PatchMap
  npatches : ℕ
deriving DecidableEq, Repr

/-- Loop body of FaultOrdering.__init__ (ffi.py lines 299-305): walks the
zipped (npl, npw) pairs carrying the running flat offset dim and the running
subfault ordinal count; returns the vmap list together with the final dim,
which the constructor stores as the total patch count. -/
def faultOrderingAux : List (ℕ × ℕ) → ℕ → ℕ → List PatchMap × ℕ
  | [], dim, _ => ([], dim)
  | (npl, npw) :: rest, dim, count =>
      ((PatchMap.mk count dim (dim + npl * npw) (npw, npl) (npl * npw)) ::
          (faultOrderingAux rest (dim + npl * npw) (count + 1)).1,
        (faultOrderingAux rest (dim + npl * npw) (count + 1)).2)

/-- FaultOrdering.__init__ (ffi.py lines 293-307): zip truncates the two
count lists to the shorter one; the constructor raises nothing, so the
embedding is a total function. -/
def FaultOrdering.build (npls npws : List ℕ) : FaultOrdering :=
  { vmap := (faultOrderingAux (npls.zip npws) 0 0).1,
    npatches := (faultOrderingAux (npls.zip npws) 0 0).2 }

/-- Sum of npl*npw over the first i zipped pairs; the flat offset of
subfault i in the ordering. -/
def patchSumTake (pairs : List (ℕ × ℕ)) (i : ℕ) : ℕ :=
  ((pairs.take i).map (fun pr => pr.1 * pr.2)).sum

/-- Shape of the dense 5-D GF tensor allocated by setup. -/
structure GFDims where
  ntargets : ℕ
  npatches : ℕ
  nrisetimes : ℕ
  nstarttimes : ℕ
  nsamples : ℕ
deriving DecidableEq, Repr

/-- Dense 5-D array addressed by (target, patch, risetime, starttime,
sample); float entries modelled as rationals. -/
abbrev GFMat := ℕ → ℕ → ℕ → ℕ → ℕ → ℚ

/-- The all-zero tensor produced by num.zeros. -/
def zeroMat : GFMat := fun _ _ _ _ _ => 0

/-- A 2-D entries batch handed to put: nrows traces of ncols samples
(entries.shape = (nrows, ncols)). -/
structure Entries where
  nrows : ℕ
  ncols : ℕ
  get : ℕ → ℕ → ℚ

/-- State of a SeismicGFLibrary object (ffi.py lines 40-111).  Targets and
stations are opaque Python objects, modelled by natural-number identities.
The numpy array object that _stack_switch['numpy'] points to is tracked
separately from the _gfmatrix attribute because setup rebinds _gfmatrix to a
fresh array while the switch dictionary keeps the old object; npAliased
records whether the two are still the same object (so that in-place writes
by put are visible through the switch).  _patchidxs is not stored: setup
sets it to arange(npatches) of the same call that sizes _gfmatrix, so it
always equals List.range of the current gfmatrix patch dimension. -/
structure SeismicGFLibrary where
  component : String
  targets : List ℕ
  stations : List ℕ
  gfmatrix : Option (GFDims × GFMat)
  sgfmatrix : Option (GFDims × GFMat)
  npRef : Option (GFDims × GFMat)
  npAliased : Bool
  switchInit : Bool
  mode : String

/-- A freshly constructed library (ffi.py __init__, lines 57-73): no
matrices, numpy mode, no _stack_switch attribute yet. -/
def SeismicGFLibrary.mk0 (component : String) (targets stations : List ℕ) :
    SeismicGFLibrary :=
  { component := component
    targets := targets
    stations := stations
    gfmatrix := none
    sgfmatrix := none
    npRef := none
    npAliased := false
    switchInit := false
    mode := "numpy" }

/-- target_index_mapping (ffi.py lines 233-238) builds a dict from target
object to its position; with duplicate targets the later index wins, hence
the reversed search.  A missing target is a KeyError at the lookup site. -/
def SeismicGFLibrary.target_index_mapping (lib : SeismicGFLibrary)
    (target : ℕ) : Option ℕ :=
  (List.range lib.targets.length).reverse.find?
    (fun i => lib.targets.getD i 0 == target)

/-- setup (ffi.py lines 92-100): checks the target/station one-to-one
correspondence, then rebinds _gfmatrix to a fresh all-zero tensor.  The
rebinding breaks any aliasing with the array captured by a previous
init_optimization; _sgfmatrix and _stack_switch are left untouched. -/
def SeismicGFLibrary.setup (lib : SeismicGFLibrary)
    (ntargets npatches nrisetimes nstarttimes nsamples : ℕ) :
    Except PyErr SeismicGFLibrary :=
  if ntargets ≠ lib.stations.length then Except.error PyErr.gfLibraryError
  else Except.ok { lib with
    gfmatrix := some (⟨ntargets, npatches, nrisetimes, nstarttimes, nsamples⟩,
      zeroMat),
    npAliased := false }

/-- init_optimization (ffi.py lines 102-111): wraps _gfmatrix into the
theano shared value (a float copy; exact in rational arithmetic), builds
_stack_switch with the numpy entry aliasing the current _gfmatrix object,
and switches the mode to theano.  Before setup, _gfmatrix is None and
None.astype raises AttributeError. -/
def SeismicGFLibrary.init_optimization (lib : SeismicGFLibrary) :
    Except PyErr SeismicGFLibrary :=
  match lib.gfmatrix with
  | none => Except.error PyErr.attributeError
  | some g => Except.ok { lib with
      sgfmatrix := some g
      npRef := some g
      npAliased := true
      switchInit := true
      mode := "theano" }

/-- set_stack_mode (ffi.py lines 136-153): reads _stack_switch.keys(), an
AttributeError before init_optimization; an unknown mode then hits the
raise statement, whose percent-format has two placeholders but one
argument, so the interpreter raises TypeError from the format itself. -/
def SeismicGFLibrary.set_stack_mode (lib : SeismicGFLibrary) (mode : String) :
    Except PyErr SeismicGFLibrary :=
  if ¬ lib.switchInit then Except.error PyErr.attributeError
  else if mode ≠ "numpy" ∧ mode ≠ "theano" then Except.error PyErr.typeError
  else Except.ok { lib with mode := mode }

/-- Index of the last row of the put batch that targets matrix cell
(r, c): numpy fancy-index assignment with duplicate indices keeps the last
write. -/
def lastHit (rts sts : List ℕ) (r c : ℕ) : Option ℕ :=
  (List.range rts.length).reverse.find?
    (fun k => rts.getD k 0 == r && sts.getD k 0 == c)

/-- Effect of the fancy-index assignment in put (ffi.py lines 133-134) on
the tensor: row k of the batch lands at (tidx, patchidx, rts[k], sts[k]). -/
def writeBatch (m : GFMat) (tidx patchidx : ℕ) (rts sts : List ℕ)
    (e : Entries) : GFMat :=
  fun t p r c s =>
    if t = tidx ∧ p = patchidx then
      match lastHit rts sts r c with
      | some k => e.get k s
      | none => m t p r c s
    else m t p r c s

/-- put (ffi.py lines 113-134).  Check order follows the source: the
entries rank check (structurally satisfied by the 2-D Entries type), then
entries.shape[1] against self.nsamples — whose property accessor runs
_check_setup first, so an unsized library raises GFLibraryError here — then
the target dict lookup, then the numpy indexing itself.  The index arrays
are modelled at equal length with a matching batch; numpy would additionally
broadcast a length-one array against a longer one, a case no claim
exercises.  The write mutates the array in place, so the numpy entry of
_stack_switch sees it exactly when it still aliases _gfmatrix. -/
def SeismicGFLibrary.put (lib : SeismicGFLibrary) (entries : Entries)
    (target patchidx : ℕ) (risetimeidxs starttimeidxs : List ℕ) :
    Except PyErr SeismicGFLibrary :=
  match lib.gfmatrix with
  | none => Except.error PyErr.gfLibraryError
  | some (d, m) =>
    if entries.ncols ≠ d.nsamples then Except.error PyErr.gfLibraryError
    else match lib.target_index_mapping target with
    | none => Except.error PyErr.keyError
    | some tidx =>
      if risetimeidxs.length ≠ starttimeidxs.length then
        Except.error PyErr.indexError
      else if ¬ (tidx < d.ntargets ∧ patchidx < d.npatches ∧
          risetimeidxs.all (fun r => r < d.nrisetimes) ∧
          starttimeidxs.all (fun c => c < d.nstarttimes)) then
        Except.error PyErr.indexError
      else if entries.nrows ≠ risetimeidxs.length then
        Except.error PyErr.valueError
      else
        Except.ok { lib with
          gfmatrix :=
            some (d, writeBatch m tidx patchidx risetimeidxs starttimeidxs
              entries),
          npRef := if lib.npAliased then
              some (d, writeBatch m tidx patchidx risetimeidxs starttimeidxs
                entries)
            else lib.npRef }

/-- The arithmetic of stack (ffi.py lines 170-173): the selected block of
shape (n, mns) is flattened, reshaped to (slips.length, gns) and the
transpose is contracted with slips; entry s of the result is the sum over
rows k of slips[k] times flat element k*gns+s. -/
def stackCompute (m : GFMat) (mns tidx : ℕ) (ps rts sts : List ℕ)
    (slips : List ℚ) (gns : ℕ) : List ℚ :=
  let flat : ℕ → ℚ := fun i =>
    m tidx (ps.getD (i / mns) 0) (rts.getD (i / mns) 0)
      (sts.getD (i / mns) 0) (i % mns)
  (List.range gns).map (fun s =>
    ((List.range slips.length).map
      (fun k => slips.getD k 0 * flat (k * gns + s))).sum)

/-- stack (ffi.py lines 155-173): target dict lookup first (KeyError on an
unknown target), then _stack_switch — an AttributeError before
init_optimization — then the fancy indexing on the matrix the active mode
selects, then the reshape to (slips.length, self.nsamples), where
self.nsamples reads the current _gfmatrix while the data may come from the
matrices captured at init_optimization.  Index arrays are modelled at equal
length (numpy length-one broadcasting is unused by the claims). -/
def SeismicGFLibrary.stack (lib : SeismicGFLibrary) (target : ℕ)
    (patchidxs risetimeidxs starttimeidxs : List ℕ) (slips : List ℚ) :
    Except PyErr (List ℚ) :=
  match lib.target_index_mapping target with
  | none => Except.error PyErr.keyError
  | some tidx =>
    if ¬ lib.switchInit then Except.error PyErr.attributeError
    else
      match (if lib.mode = "numpy" then lib.npRef else lib.sgfmatrix),
          lib.gfmatrix with
      | some (md, m), some (gd, _) =>
        if patchidxs.length ≠ risetimeidxs.length ∨
            patchidxs.length ≠ starttimeidxs.length then
          Except.error PyErr.indexError
        else if ¬ (tidx < md.ntargets ∧
            patchidxs.all (fun p => p < md.npatches) ∧
            risetimeidxs.all (fun r => r < md.nrisetimes) ∧
            starttimeidxs.all (fun c => c < md.nstarttimes)) then
          Except.error PyErr.indexError
        else if patchidxs.length * md.nsamples ≠
            slips.length * gd.nsamples then
          Except.error PyErr.valueError
        else
          Except.ok (stackCompute m md.nsamples tidx patchidxs risetimeidxs
            starttimeidxs slips gd.nsamples)
      | _, _ => Except.error PyErr.attributeError

/-- The arithmetic of stack_all (ffi.py lines 193-199): the selected block
of shape (md.ntargets, n, md.nsamples) is flattened, reshaped to
(gd.ntargets, gd.npatches, gd.nsamples), the patch axis is moved to the
front and batched_dot with slips scales each patch sheet, which sum(axis=0)
adds up. -/
def stackAllCompute (m : GFMat) (md gd : GFDims) (rts sts : List ℕ)
    (slips : List ℚ) : List (List ℚ) :=
  let n := gd.npatches
  let flat : ℕ → ℚ := fun i =>
    m (i / (n * md.nsamples)) ((i % (n * md.nsamples)) / md.nsamples)
      (rts.getD ((i % (n * md.nsamples)) / md.nsamples) 0)
      (sts.getD ((i % (n * md.nsamples)) / md.nsamples) 0)
      ((i % (n * md.nsamples)) % md.nsamples)
  (List.range gd.ntargets).map (fun t =>
    (List.range gd.nsamples).map (fun s =>
      ((List.range n).map (fun p =>
        slips.getD p 0 *
          flat (t * (n * gd.nsamples) + p * gd.nsamples + s))).sum))

/-- stack_all (ffi.py lines 175-199): guarded by _sgfmatrix being set; the
patch index array is self._patchidxs = arange of the current _gfmatrix
patch dimension; the shape properties ntargets/npatches/nsamples used for
the reshape read the current _gfmatrix while the data comes from
_sgfmatrix; batched_dot needs the slip batch to match the patch axis. -/
def SeismicGFLibrary.stack_all (lib : SeismicGFLibrary)
    (risetimeidxs starttimeidxs : List ℕ) (slips : List ℚ) :
    Except PyErr (List (List ℚ)) :=
  match lib.sgfmatrix with
  | none => Except.error PyErr.gfLibraryError
  | some (md, m) =>
    match lib.gfmatrix with
    | none => Except.error PyErr.gfLibraryError
    | some (gd, _) =>
      if risetimeidxs.length ≠ gd.npatches ∨
          starttimeidxs.length ≠ gd.npatches then
        Except.error PyErr.indexError
      else if ¬ ((List.range gd.npatches).all (fun p => p < md.npatches) ∧
          risetimeidxs.all (fun r => r < md.nrisetimes) ∧
          starttimeidxs.all (fun c => c < md.nstarttimes)) then
        Except.error PyErr.indexError
      else if md.ntargets * (gd.npatches * md.nsamples) ≠
          gd.ntargets * (gd.npatches * gd.nsamples) then
        Except.error PyErr.valueError
      else if slips.length ≠ gd.npatches then
        Except.error PyErr.valueError
      else
        Except.ok (stackAllCompute m md gd risetimeidxs starttimeidxs slips)

/-- An extended reference source object.  These live in repository code
outside src (beat sources built on pyrocko); only its identity matters to
the lookups modelled here. -/
structure ExtSource where
  id : ℕ
deriving DecidableEq, Repr

/-- One rectangular patch of a subdivided extended source. -/
structure Patch where
  src : ℕ
  iw : ℕ
  il : ℕ
deriving DecidableEq, Repr

/-- Modelled from the spec: the patches method of a reference source object
is repository code outside src; per spec section 3 (Subfault: an along-dip
by along-strike patch grid) and section 6 (reference source objects support
subdivision into patch objects), subdividing with nl patches along strike
and nw along dip yields the nw * nl grid patches. -/
def ExtSource.patches (s : ExtSource) (nl nw : ℕ) : List Patch :=
  ((List.range nw).map (fun iw =>
    (List.range nl).map (fun il => Patch.mk s.id iw il))).flatten

/-- FaultGeometry state (ffi.py lines 314-336): declared datatypes and
components, the _ext_sources dict (an association list keyed by the string
keys get_subfault_key builds; setup_subfaults never stores a duplicate
key), and the ordering. -/
structure FaultGeometry where
  datatypes : List String
  components : List String
  extSources : List (String × ExtSource)
  ordering : FaultOrdering
deriving DecidableEq, Repr

/-- nsubfaults property (ffi.py lines 477-479). -/
def FaultGeometry.nsubfaults (fg : FaultGeometry) : ℕ :=
  fg.ordering.vmap.length

/-- nsubpatches property (ffi.py lines 481-483). -/
def FaultGeometry.nsubpatches (fg : FaultGeometry) : ℕ :=
  fg.ordering.npatches

/-- _check_datatype (ffi.py lines 338-340). -/
def FaultGeometry.check_datatype (fg : FaultGeometry) (datatype : String) :
    Except PyErr Unit :=
  if datatype ∈ fg.datatypes then Except.ok () else Except.error PyErr.typeError

/-- _check_component (ffi.py lines 342-344). -/
def FaultGeometry.check_component (fg : FaultGeometry) (component : String) :
    Except PyErr Unit :=
  if component ∈ fg.components then Except.ok ()
  else Except.error PyErr.typeError

/-- _check_index (ffi.py lines 346-348): index > nsubfaults - 1 over the
Python integers. -/
def FaultGeometry.check_index (fg : FaultGeometry) (index : ℕ) :
    Except PyErr Unit :=
  if (index : ℤ) > (fg.nsubfaults : ℤ) - 1 then Except.error PyErr.typeError
  else Except.ok ()

/-- get_subfault_key (ffi.py lines 350-364): validates (or defaults) the
datatype and the component, validates the index, and builds the dict key;
defaulting on an empty declaration list is the IndexError of datatypes[0]
or components[0]. -/
def FaultGeometry.get_subfault_key (fg : FaultGeometry) (index : ℕ)
    (datatype component : Option String) : Except PyErr String := do
  let dt ← match datatype with
    | some dt => do
        fg.check_datatype dt
        pure dt
    | none => match fg.datatypes with
      | [] => Except.error PyErr.indexError
      | d :: _ => pure d
  let comp ← match component with
    | some comp => do
        fg.check_component comp
        pure comp
    | none => match fg.components with
      | [] => Except.error PyErr.indexError
      | c :: _ => pure c
  fg.check_index index
  pure (dt ++ "_" ++ comp ++ "_" ++ toString index)

/-- get_subfault (ffi.py lines 391-398): dict membership test then lookup;
an unregistered key is a FaultGeometryError. -/
def FaultGeometry.get_subfault (fg : FaultGeometry) (index : ℕ)
    (datatype component : Option String) : Except PyErr ExtSource := do
  let key ← fg.get_subfault_key index datatype component
  match fg.extSources.find? (fun kv => kv.1 == key) with
  | some kv => pure kv.2
  | none => Except.error PyErr.faultGeometryError

/-- get_subfault_patches (ffi.py lines 400-417): index check, subfault
lookup, then subdivision along the stored grid shape (npw, npl). -/
def FaultGeometry.get_subfault_patches (fg : FaultGeometry) (index : ℕ)
    (datatype component : Option String) : Except PyErr (List Patch) := do
  fg.check_index index
  let sub ← fg.get_subfault index datatype component
  let pm := fg.ordering.vmap.getD index default
  pure (sub.patches pm.shp.2 pm.shp.1)

/-- Loop of get_all_patches over subfaults 0..n-1 (ffi.py lines 431-434);
the recursion evaluates smaller indices first, so the first failing
subfault determines the error, as in the Python loop. -/
def getAllPatchesAux (fg : FaultGeometry) (datatype component : Option String) :
    ℕ → Except PyErr (List Patch)
  | 0 => pure []
  | n + 1 => do
      let acc ← getAllPatchesAux fg datatype component n
      let ps ← fg.get_subfault_patches n datatype component
      pure (acc ++ ps)

/-- get_all_patches (ffi.py lines 419-436): concatenation of the per-
subfault patch lists in ordering order. -/
def FaultGeometry.get_all_patches (fg : FaultGeometry)
    (datatype component : Option String) : Except PyErr (List Patch) :=
  getAllPatchesAux fg datatype component fg.nsubfaults

/-- get_patch_indexes (ffi.py lines 438-455): index check, then the stored
slice of the subfault, as (start, stop). -/
def FaultGeometry.get_patch_indexes (fg : FaultGeometry) (index : ℕ) :
    Except PyErr (ℕ × ℕ) := do
  fg.check_index index
  let pm := fg.ordering.vmap.getD index default
  pure (pm.slcStart, pm.slcStop)

/-- Per-axis patch count of discretize_sources (ffi.py lines 536-537):
int(num.ceil(extended_dimension / target_patch_dimension)). -/
def n_patches_axis (ext target : ℚ) : ℤ := ⌈ext / target⌉

/-- Actual patch size after the ceiling rounding (the pattern of ffi.py
line 469: dimension divided by the per-axis patch count). -/
def actual_patch_size (ext target : ℚ) : ℚ :=
  ext / ((n_patches_axis ext target : ℤ) : ℚ)

/-- Patch-axis length allocated by seis_construct_gf_linear (ffi.py line
678 with line 687): npatches = fault.nsubfaults. -/
def seisConstructNpatches (fault : FaultGeometry) : ℕ := fault.nsubfaults

/-- Number of patches the fill loop of seis_construct_gf_linear enumerates
(ffi.py lines 689-690): enumerate over get_all_patches of the seismic
datatype. -/
def seisConstructEnumerated (fault : FaultGeometry) (var : String) :
    Except PyErr ℕ :=
  (fault.get_all_patches (some ("seismic")) (some var)).map List.length

/-- Concrete fault used as failing input: one subfault discretized into a
2 by 2 patch grid, with its seismic Uparr source registered. -/
def faultEx : FaultGeometry :=
  { datatypes := ["seismic"]
    components := ["Uparr"]
    extSources := [("seismic_Uparr_0", ExtSource.mk 0)]
    ordering := FaultOrdering.build [2] [2] }

/-- Concrete library used in the scenario runs: one target (7) and one
station (3). -/
def libEx : SeismicGFLibrary := SeismicGFLibrary.mk0 ("Uparr") [7] [3]

/-- One-row batch holding the single sample value 2. -/
def entriesTwo : Entries := Entries.mk 1 1 (fun _ _ => 2)

/-- One-row batch holding the single sample value 5. -/
def entriesFive : Entries := Entries.mk 1 1 (fun _ _ => 5)

/-- The round-trip scenario of the claim, run as the source has it: size
the library, write one row, stack it back without any further call. -/
def roundtripRun : Except PyErr (List ℚ) := do
  let l1 ← libEx.setup 1 1 1 1 1
  let l2 ← l1.put entriesTwo 7 0 [0] [0]
  l2.stack 7 [0] [0] [0] [1]

/-- Re-setup scenario: size, write the value 5, initialize the backends,
size again (which the claim says discards all written entries), then stack
before any further put. -/
def resetupRun : Except PyErr (List ℚ) := do
  let l1 ← libEx.setup 1 1 1 1 1
  let l2 ← l1.put entriesFive 7 0 [0] [0]
  let l3 ← l2.init_optimization
  let l4 ← l3.setup 1 1 1 1 1
  l4.stack 7 [0] [0] [0] [1]

/-- Elementwise sum of a list of sample vectors, each read at the first ns
sample positions. -/
def sumVecs (vs : List (List ℚ)) (ns : ℕ) : List ℚ :=
  (List.range ns).map (fun s => (vs.map (fun v => v.getD s 0)).sum)

/-- The library right after a successful setup(1, 1, 1, 1, 1). -/
def libExSized : SeismicGFLibrary :=
  { libEx with gfmatrix := some (⟨1, 1, 1, 1, 1⟩, zeroMat), npAliased := false }

/-- The sized library right after init_optimization. -/
def libExInit : SeismicGFLibrary :=
  { libExSized with
    sgfmatrix := some (⟨1, 1, 1, 1, 1⟩, zeroMat)
    npRef := some (⟨1, 1, 1, 1, 1⟩, zeroMat)
    npAliased := true
    switchInit := true
    mode := "theano" }

/-- The initialized library switched back to the numpy backend. -/
def libExNumpy : SeismicGFLibrary := { libExInit with mode := "numpy" }

instance {ε α : Type} [DecidableEq ε] [DecidableEq α] :
    DecidableEq (Except ε α) := fun a b =>
  match a, b with
  | Except.ok x, Except.ok y =>
      if h : x = y then isTrue (by rw [h]) else isFalse (by simp [h])
  | Except.ok _, Except.error _ => isFalse (by simp)
  | Except.error _, Except.ok _ => isFalse (by simp)
  | Except.error x, Except.error y =>
      if h : x = y then isTrue (by rw [h]) else isFalse (by simp [h])

lemma faultOrderingAux_fst_length (pairs : List (ℕ × ℕ)) (dim count : ℕ) :
    (faultOrderingAux pairs dim count).1.length = pairs.length := by
  induction pairs generalizing dim count with
  | nil => simp [faultOrderingAux]
  | cons pr rest ih =>
      obtain ⟨npl, npw⟩ := pr
      simp [faultOrderingAux, ih]

lemma faultOrderingAux_snd (pairs : List (ℕ × ℕ)) (dim count : ℕ) :
    (faultOrderingAux pairs dim count).2 =
      dim + ((pairs.map (fun pr => pr.1 * pr.2)).sum) := by
  induction pairs generalizing dim count with
  | nil => simp [faultOrderingAux]
  | cons pr rest ih =>
      obtain ⟨npl, npw⟩ := pr
      simp [faultOrderingAux, ih]
      omega

lemma faultOrderingAux_npatches_sum (pairs : List (ℕ × ℕ)) (dim count : ℕ) :
    (((faultOrderingAux pairs dim count).1.map (fun pm => pm.npatches)).sum) =
      (pairs.map (fun pr => pr.1 * pr.2)).sum := by
  induction pairs generalizing dim count with
  | nil => simp [faultOrderingAux]
  | cons pr rest ih =>
      obtain ⟨npl, npw⟩ := pr
      simp [faultOrderingAux, ih]

lemma patchSumTake_zero (pairs : List (ℕ × ℕ)) : patchSumTake pairs 0 = 0 := by
  simp [patchSumTake]

lemma patchSumTake_cons_succ (pr : ℕ × ℕ) (rest : List (ℕ × ℕ)) (i : ℕ) :
    patchSumTake (pr :: rest) (i + 1) = pr.1 * pr.2 + patchSumTake rest i := by
  simp [patchSumTake, List.take_succ_cons]

lemma faultOrderingAux_getD (pairs : List (ℕ × ℕ)) (dim count i : ℕ)
    (h : i < pairs.length) :
    (faultOrderingAux pairs dim count).1.getD i default =
      PatchMap.mk (count + i) (dim + patchSumTake pairs i)
        (dim + patchSumTake pairs (i + 1))
        ((pairs.getD i (0, 0)).2, (pairs.getD i (0, 0)).1)
        ((pairs.getD i (0, 0)).1 * (pairs.getD i (0, 0)).2) := by
  induction pairs generalizing dim count i with
  | nil => simp at h
  | cons pr rest ih =>
      obtain ⟨npl, npw⟩ := pr
      cases i with
      | zero =>
          simp [faultOrderingAux, patchSumTake_zero, patchSumTake_cons_succ,
            patchSumTake]
      | succ j =>
          have hj : j < rest.length := by simpa using h
          have hih := ih (dim + npl * npw) (count + 1) j hj
          simp only [faultOrderingAux, List.getD_cons_succ]
          rw [hih, patchSumTake_cons_succ, patchSumTake_cons_succ]
          simp [PatchMap.mk.injEq]
          all_goals omega

lemma zip_getD (as bs : List ℕ) (i : ℕ) (h1 : i < as.length)
    (h2 : i < bs.length) :
    (as.zip bs).getD i (0, 0) = (as.getD i 0, bs.getD i 0) := by
  induction as generalizing bs i with
  | nil => simp at h1
  | cons a as ih =>
      cases bs with
      | nil => simp at h2
      | cons b bs =>
          cases i with
          | zero => simp [List.zip_cons_cons]
          | succ j =>
              have hj1 : j < as.length := by simpa using h1
              have hj2 : j < bs.length := by simpa using h2
              rw [List.zip_cons_cons, List.getD_cons_succ,
                List.getD_cons_succ, List.getD_cons_succ]
              exact ih bs j hj1 hj2

/-- C3: for per-subfault strike and dip count lists of equal length, the
built FaultOrdering gives subfault i the patch count npls[i] * npws[i], its
slice runs from the prefix sum before i to the prefix sum through i (so the
slices, in subfault order, contiguously partition [0, total) with no gaps
or overlaps), and the per-subfault patch counts sum to the exposed total. -/
theorem c3_fault_ordering_partition (npls npws : List ℕ)
    (h : npls.length = npws.length) :
    (FaultOrdering.build npls npws).vmap.length = npls.length ∧
    (FaultOrdering.build npls npws).npatches =
      patchSumTake (npls.zip npws) npls.length ∧
    (((FaultOrdering.build npls npws).vmap.map (fun pm => pm.npatches)).sum) =
      (FaultOrdering.build npls npws).npatches ∧
    ∀ i, i < npls.length →
      ((FaultOrdering.build npls npws).vmap.getD i default).npatches =
          npls.getD i 0 * npws.getD i 0 ∧
      ((FaultOrdering.build npls npws).vmap.getD i default).slcStart =
          patchSumTake (npls.zip npws) i ∧
      ((FaultOrdering.build npls npws).vmap.getD i default).slcStop =
          patchSumTake (npls.zip npws) (i + 1) := by
  have hlen : (npls.zip npws).length = npls.length := by
    rw [List.length_zip npls npws, h, Nat.min_self]
  have htake : (npls.zip npws).take npls.length = npls.zip npws := by
    rw [← hlen]
    exact List.take_length _
  refine ⟨?_, ?_, ?_, ?_⟩
  · simp only [FaultOrdering.build, faultOrderingAux_fst_length, hlen]
  · simp only [FaultOrdering.build, faultOrderingAux_snd, patchSumTake, htake,
      Nat.zero_add]
  · simp only [FaultOrdering.build, faultOrderingAux_npatches_sum,
      faultOrderingAux_snd, Nat.zero_add]
  · intro i hi
    have hiz : i < (npls.zip npws).length := by omega
    simp only [FaultOrdering.build]
    rw [faultOrderingAux_getD _ _ _ _ hiz]
    rw [zip_getD npls npws i hi (by omega)]
    exact ⟨rfl, by simp, by simp⟩

/-- C3 witness: the ordering built from strike counts [2, 3] and dip counts
[1, 2] has two subfaults, total 8 patches, and subfault 1 occupies the
slice [2, 8). -/
theorem c3_fault_ordering_partition_witness :
    (FaultOrdering.build [2, 3] [1, 2]).vmap.length = 2 ∧
    ((FaultOrdering.build [2, 3] [1, 2]).vmap.getD 1 default).slcStart = 2 ∧
    ((FaultOrdering.build [2, 3] [1, 2]).vmap.getD 1 default).slcStop = 8 := by
  have h := c3_fault_ordering_partition [2, 3] [1, 2] (by decide)
  have h1 := h.2.2.2 1 (by decide)
  exact ⟨h.1, h1.2.1.trans (by decide), h1.2.2.trans (by decide)⟩

/-- C9 counterexample: FaultOrdering is built, without any error, from two
empty count lists (an empty ordering of total 0) and from lists of
different lengths (the zip truncates to the shorter list); the claimed
failures do not happen. -/
theorem c9_counterexample :
    (FaultOrdering.build [] []).vmap = [] ∧
    (FaultOrdering.build [] []).npatches = 0 ∧
    (FaultOrdering.build [5] [2, 4]).vmap =
      [PatchMap.mk 0 0 10 (2, 5) 10] ∧
    (FaultOrdering.build [5] [2, 4]).npatches = 10 := by decide

/-- C9 amended: building a FaultOrdering never fails; the two count lists
are truncated to the shorter length, and each surviving subfault i gets
patch count npls[i] * npws[i] together with the next contiguous flat-index
slice. -/
theorem c9_build_never_fails (npls npws : List ℕ) :
    (FaultOrdering.build npls npws).vmap.length =
      min npls.length npws.length ∧
    (FaultOrdering.build npls npws).npatches =
      patchSumTake (npls.zip npws) (min npls.length npws.length) ∧
    ∀ i, i < min npls.length npws.length →
      ((FaultOrdering.build npls npws).vmap.getD i default).npatches =
          npls.getD i 0 * npws.getD i 0 ∧
      ((FaultOrdering.build npls npws).vmap.getD i default).slcStart =
          patchSumTake (npls.zip npws) i ∧
      ((FaultOrdering.build npls npws).vmap.getD i default).slcStop =
          patchSumTake (npls.zip npws) (i + 1) := by
  have hlen : (npls.zip npws).length = min npls.length npws.length :=
    List.length_zip npls npws
  have htake : (npls.zip npws).take (min npls.length npws.length) =
      npls.zip npws := by
    rw [← hlen]
    exact List.take_length _
  refine ⟨?_, ?_, ?_⟩
  · simp only [FaultOrdering.build, faultOrderingAux_fst_length, hlen]
  · simp only [FaultOrdering.build, faultOrderingAux_snd, patchSumTake, htake,
      Nat.zero_add]
  · intro i hi
    have hiz : i < (npls.zip npws).length := by omega
    simp only [FaultOrdering.build]
    rw [faultOrderingAux_getD _ _ _ _ hiz]
    rw [zip_getD npls npws i (by omega) (by omega)]
    exact ⟨rfl, by simp, by simp⟩

/-- C9 amended witness: with mismatched lists [2, 7] and [3], only one
subfault survives, with 6 patches on the slice [0, 6). -/
theorem c9_build_never_fails_witness :
    (FaultOrdering.build [2, 7] [3]).vmap.length = 1 ∧
    ((FaultOrdering.build [2, 7] [3]).vmap.getD 0 default).npatches = 6 := by
  have h := c9_build_never_fails [2, 7] [3]
  exact ⟨h.1, (h.2.2 0 (by decide)).1⟩

/-- C6: the per-axis patch count is the ceiling of the extended dimension
over the target patch dimension, the actual patch size is the extended
dimension divided by that count and never exceeds the requested target; an
extension of 23 (km) with target 5 (km) yields 5 patches of size 23/5 =
4.6 (km). -/
theorem c6_discretize_patch_size (ext target : ℚ) (hext : 0 < ext)
    (htarget : 0 < target) :
    n_patches_axis ext target = ⌈ext / target⌉ ∧
    actual_patch_size ext target =
      ext / ((n_patches_axis ext target : ℤ) : ℚ) ∧
    actual_patch_size ext target ≤ target ∧
    n_patches_axis 23 5 = 5 ∧
    actual_patch_size 23 5 = 23 / 5 := by
  have hq : 0 < ext / target := div_pos hext htarget
  have hcpos : 0 < n_patches_axis ext target := Int.ceil_pos.mpr hq
  have hcQ : (0 : ℚ) < ((n_patches_axis ext target : ℤ) : ℚ) := by
    exact_mod_cast hcpos
  have hle : ext / target ≤ ((n_patches_axis ext target : ℤ) : ℚ) :=
    Int.le_ceil _
  have h5 : n_patches_axis 23 5 = 5 := by
    rw [n_patches_axis, Int.ceil_eq_iff]
    norm_num
  refine ⟨rfl, rfl, ?_, h5, ?_⟩
  · rw [actual_patch_size, div_le_iff₀ hcQ]
    have := (div_le_iff₀ htarget).mp hle
    linarith [this]
  · rw [actual_patch_size, h5]
    norm_num

/-- C6 witness: the concrete 23 km by 5 km example. -/
theorem c6_discretize_patch_size_witness :
    actual_patch_size 23 5 ≤ 5 ∧ n_patches_axis 23 5 = 5 := by
  have h := c6_discretize_patch_size 23 5 (by norm_num) (by norm_num)
  exact ⟨h.2.2.1, h.2.2.2.1⟩

/-- C7: switching to the unrecognized backend name bogus never succeeds
(before init_optimization the _stack_switch read raises AttributeError,
after it the malformed raise itself fails with a TypeError), and stack_all
before init_optimization fails with the GFLibraryError guard. -/
theorem c7_error_handling (lib : SeismicGFLibrary) (rts sts : List ℕ)
    (slips : List ℚ) :
    isOkB (lib.set_stack_mode ("bogus")) = false ∧
    (lib.sgfmatrix = none →
      lib.stack_all rts sts slips = Except.error PyErr.gfLibraryError) := by
  constructor
  · cases hsw : lib.switchInit <;>
      simp [SeismicGFLibrary.set_stack_mode, hsw, isOkB]
  · intro h
    unfold SeismicGFLibrary.stack_all
    rw [h]

/-- C7 witness: a fresh library rejects the bogus mode and stack_all. -/
theorem c7_error_handling_witness :
    isOkB (libEx.set_stack_mode ("bogus")) = false ∧
    libEx.stack_all [] [] [] = Except.error PyErr.gfLibraryError := by
  have h := c7_error_handling libEx [] [] []
  exact ⟨h.1, h.2 rfl⟩

unseal Rat.add Rat.mul in
/-- C1: the claimed round trip (setup, put of one row, stack of that row)
does not return the written row [2]; stack reads the _stack_switch
attribute that only init_optimization creates, so the run stops with an
AttributeError. -/
theorem c1_roundtrip_attribute_error :
    roundtripRun = Except.error PyErr.attributeError ∧
    roundtripRun ≠ Except.ok [(2 : ℚ)] := by decide

/-- C5: seis_construct_gf_linear sizes the patch axis with fault.nsubfaults
(one slot per subfault) while its fill loop enumerates every patch of
get_all_patches; on a single subfault with a 2 by 2 grid the loop yields 4
patches (the geometry's total patch count) against an allocated axis of
length 1. -/
theorem c5_patch_axis_mismatch :
    seisConstructEnumerated faultEx ("Uparr") = Except.ok 4 ∧
    seisConstructNpatches faultEx = 1 ∧
    faultEx.nsubpatches = 4 ∧
    (4 : ℕ) ≠ 1 := by decide

unseal Rat.add Rat.mul in
/-- C10 counterexample: after setup, a put of the value 5,
init_optimization and a second setup, stacking before any further put
returns the previously written 5, not the all-zero waveform; the re-setup
rebinds _gfmatrix but the stacking backends keep the matrices captured at
init_optimization. -/
theorem c10_counterexample :
    resetupRun = Except.ok [(5 : ℚ)] ∧
    resetupRun ≠ Except.ok [(0 : ℚ)] := by decide

lemma stackCompute_zero (mns tidx : ℕ) (ps rts sts : List ℕ)
    (slips : List ℚ) (gns : ℕ) :
    stackCompute zeroMat mns tidx ps rts sts slips gns =
      List.replicate gns 0 := by
  unfold stackCompute zeroMat
  simp [List.eq_replicate_iff]

/-- C10 amended: every successful setup leaves the freshly allocated
backing tensor entirely zero, and a stack performed after setup followed by
init_optimization, before any put, returns the all-zero waveform.  (After a
re-setup the stacking backends keep the matrices captured at
init_optimization, so the zero-result consequence fails there.) -/
theorem c10_setup_zeroes (lib lib1 lib2 : SeismicGFLibrary)
    (nt np nr nst ns : ℕ)
    (hsetup : lib.setup nt np nr nst ns = Except.ok lib1)
    (hinit : lib1.init_optimization = Except.ok lib2)
    (tgt tidx : ℕ) (ps rts sts : List ℕ) (slips : List ℚ)
    (htgt : lib2.target_index_mapping tgt = some tidx)
    (hl1 : ps.length = rts.length) (hl2 : ps.length = sts.length)
    (hsl : slips.length = ps.length)
    (htr : tidx < nt) (hpr : ps.all (fun p => p < np) = true)
    (hrr : rts.all (fun r => r < nr) = true)
    (hcr : sts.all (fun c => c < nst) = true) :
    lib1.gfmatrix = some (⟨nt, np, nr, nst, ns⟩, zeroMat) ∧
    lib2.stack tgt ps rts sts slips =
      Except.ok (List.replicate ns (0 : ℚ)) := by
  unfold SeismicGFLibrary.setup at hsetup
  by_cases hnt : nt ≠ lib.stations.length
  · rw [if_pos hnt] at hsetup
    simp at hsetup
  · rw [if_neg hnt] at hsetup
    injection hsetup with h1
    subst h1
    simp only [SeismicGFLibrary.init_optimization] at hinit
    injection hinit with h2
    subst h2
    refine ⟨rfl, ?_⟩
    have h12 : rts.length = sts.length := hl1 ▸ hl2
    simp only [SeismicGFLibrary.stack, htgt]
    norm_num [hl1, hl2, h12, hsl, htr, hpr, hrr, hcr, stackCompute_zero]

/-- C10 amended witness: the concrete one-sample library, sized and
initialized, stacks to the zero waveform before any put. -/
theorem c10_setup_zeroes_witness :
    libEx.setup 1 1 1 1 1 = Except.ok libExSized ∧
    libExSized.gfmatrix = some (⟨1, 1, 1, 1, 1⟩, zeroMat) ∧
    libExInit.stack 7 [0] [0] [0] [1] =
      Except.ok (List.replicate 1 (0 : ℚ)) := by
  have hsetup : libEx.setup 1 1 1 1 1 = Except.ok libExSized := rfl
  have hinit : libExSized.init_optimization = Except.ok libExInit := rfl
  have h := c10_setup_zeroes libEx libExSized libExInit 1 1 1 1 1 hsetup hinit
    7 0 [0] [0] [0] [1] (by decide) rfl rfl rfl (by decide) (by decide)
    (by decide) (by decide)
  exact ⟨hsetup, h.1, h.2⟩

lemma except_bind_ok {α β : Type} (a : α) (f : α → Except PyErr β) :
    (Except.ok a >>= f) = f a := rfl

lemma except_bind_error {α β : Type} (e : PyErr) (f : α → Except PyErr β) :
    ((Except.error e : Except PyErr α) >>= f) = Except.error e := rfl

lemma check_index_eq (fg : FaultGeometry) (i : ℕ) :
    fg.check_index i =
      if i < fg.nsubfaults then Except.ok ()
      else Except.error PyErr.typeError := by
  unfold FaultGeometry.check_index
  by_cases h : i < fg.nsubfaults
  · rw [if_neg (by omega), if_pos h]
  · rw [if_pos (by omega), if_neg h]

lemma get_subfault_key_some_eq (fg : FaultGeometry) (i : ℕ)
    (dt comp : String) :
    fg.get_subfault_key i (some dt) (some comp) =
      if dt ∈ fg.datatypes then
        if comp ∈ fg.components then
          if i < fg.nsubfaults then
            Except.ok (dt ++ "_" ++ comp ++ "_" ++ toString i)
          else Except.error PyErr.typeError
        else Except.error PyErr.typeError
      else Except.error PyErr.typeError := by
  by_cases h1 : dt ∈ fg.datatypes
  · by_cases h2 : comp ∈ fg.components
    · by_cases h3 : i < fg.nsubfaults
      · simp [FaultGeometry.get_subfault_key, FaultGeometry.check_datatype,
          FaultGeometry.check_component, check_index_eq, h1, h2, h3,
          except_bind_ok, except_bind_error]
      · simp [FaultGeometry.get_subfault_key, FaultGeometry.check_datatype,
          FaultGeometry.check_component, check_index_eq, h1, h2, h3,
          except_bind_ok, except_bind_error]
    · simp [FaultGeometry.get_subfault_key, FaultGeometry.check_datatype,
        FaultGeometry.check_component, h1, h2, except_bind_ok,
        except_bind_error]
  · simp [FaultGeometry.get_subfault_key, FaultGeometry.check_datatype, h1,
      except_bind_ok, except_bind_error]

lemma find?_isSome_iff_mem (l : List (String × ExtSource)) (key : String) :
    (l.find? (fun kv => kv.1 == key)).isSome = true ↔
      key ∈ l.map Prod.fst := by
  induction l with
  | nil => simp
  | cons kv rest ih =>
      by_cases h : kv.1 = key
      · rw [List.find?_cons_of_pos _ (by simp [h])]
        simp [h]
      · rw [List.find?_cons_of_neg _ (by simp [h])]
        simp [h, ih]
        intro hk
        exact absurd hk.symm h

lemma get_subfault_isOk (fg : FaultGeometry) (i : ℕ) (dt comp : String) :
    isOkB (fg.get_subfault i (some dt) (some comp)) = true ↔
      (dt ∈ fg.datatypes ∧ comp ∈ fg.components ∧ i < fg.nsubfaults ∧
        (dt ++ "_" ++ comp ++ "_" ++ toString i) ∈
          fg.extSources.map Prod.fst) := by
  unfold FaultGeometry.get_subfault
  rw [get_subfault_key_some_eq]
  by_cases h1 : dt ∈ fg.datatypes
  · by_cases h2 : comp ∈ fg.components
    · by_cases h3 : i < fg.nsubfaults
      · rw [if_pos h1, if_pos h2, if_pos h3, except_bind_ok]
        rw [← find?_isSome_iff_mem]
        cases hf : fg.extSources.find? (fun kv =>
            kv.1 == dt ++ "_" ++ comp ++ "_" ++ toString i) with
        | none => simp [hf, isOkB, h1, h2, h3]
        | some kv => simp [hf, isOkB, h1, h2, h3, pure, Except.pure]
      · rw [if_pos h1, if_pos h2, if_neg h3, except_bind_error]
        simp [isOkB, h3]
    · rw [if_pos h1, if_neg h2, except_bind_error]
      simp [isOkB, h2]
  · rw [if_neg h1, except_bind_error]
    simp [isOkB, h1]

lemma isOkB_bind_pure {α β : Type} (x : Except PyErr α) (f : α → β) :
    isOkB (x >>= fun a => pure (f a)) = isOkB x := by
  cases x <;> rfl

lemma get_subfault_patches_isOk (fg : FaultGeometry) (i : ℕ)
    (dt comp : String) :
    isOkB (fg.get_subfault_patches i (some dt) (some comp)) = true ↔
      (dt ∈ fg.datatypes ∧ comp ∈ fg.components ∧ i < fg.nsubfaults ∧
        (dt ++ "_" ++ comp ++ "_" ++ toString i) ∈
          fg.extSources.map Prod.fst) := by
  unfold FaultGeometry.get_subfault_patches
  rw [check_index_eq]
  by_cases h3 : i < fg.nsubfaults
  · rw [if_pos h3, except_bind_ok]
    rw [isOkB_bind_pure]
    exact get_subfault_isOk fg i dt comp
  · rw [if_neg h3, except_bind_error]
    simp [isOkB, h3]

lemma getAllPatchesAux_isOk (fg : FaultGeometry) (dt comp : String) (n : ℕ)
    (hn : n ≤ fg.nsubfaults) :
    isOkB (getAllPatchesAux fg (some dt) (some comp) n) = true ↔
      ∀ j, j < n → (dt ∈ fg.datatypes ∧ comp ∈ fg.components ∧
        (dt ++ "_" ++ comp ++ "_" ++ toString j) ∈
          fg.extSources.map Prod.fst) := by
  induction n with
  | zero => simp [getAllPatchesAux, isOkB, pure, Except.pure]
  | succ k ih =>
      have hk : k ≤ fg.nsubfaults := by omega
      unfold getAllPatchesAux
      cases haux : getAllPatchesAux fg (some dt) (some comp) k with
      | error e =>
          rw [except_bind_error]
          have hfalse : ¬ ∀ j, j < k →
              (dt ∈ fg.datatypes ∧ comp ∈ fg.components ∧
                (dt ++ "_" ++ comp ++ "_" ++ toString j) ∈
                  fg.extSources.map Prod.fst) := by
            intro hall
            have := (ih hk).mpr hall
            rw [haux] at this
            simp [isOkB] at this
          constructor
          · intro h
            simp [isOkB] at h
          · intro h
            exact absurd (fun j hj => h j (by omega)) hfalse
      | ok acc =>
          rw [except_bind_ok]
          have hall : ∀ j, j < k →
              (dt ∈ fg.datatypes ∧ comp ∈ fg.components ∧
                (dt ++ "_" ++ comp ++ "_" ++ toString j) ∈
                  fg.extSources.map Prod.fst) := by
            apply (ih hk).mp
            rw [haux]
            rfl
          have hbp : isOkB ((fg.get_subfault_patches k (some dt)
                (some comp)) >>= fun ps => pure (acc ++ ps)) =
              isOkB (fg.get_subfault_patches k (some dt) (some comp)) :=
            isOkB_bind_pure _ _
          rw [hbp, get_subfault_patches_isOk]
          constructor
          · intro h j hj
            by_cases hjk : j < k
            · exact hall j hjk
            · have : j = k := by omega
              subst this
              exact ⟨h.1, h.2.1, h.2.2.2⟩
          · intro h
            have hk2 := h k (by omega)
            exact ⟨hk2.1, hk2.2.1, by omega, hk2.2.2⟩

/-- C8: the FaultGeometry lookups are pure functions of the stored state;
get_patch_indexes returns the stored slice exactly when the subfault index
is in range, get_subfault succeeds exactly when the requested datatype and
component are declared, the index is in range and the key is registered,
and get_all_patches succeeds exactly when that holds for every subfault. -/
theorem c8_geometry_lookups (fg : FaultGeometry) (i : ℕ) (dt comp : String) :
    (fg.get_patch_indexes i =
      if i < fg.nsubfaults then
        Except.ok ((fg.ordering.vmap.getD i default).slcStart,
          (fg.ordering.vmap.getD i default).slcStop)
      else Except.error PyErr.typeError) ∧
    (isOkB (fg.get_subfault i (some dt) (some comp)) = true ↔
      (dt ∈ fg.datatypes ∧ comp ∈ fg.components ∧ i < fg.nsubfaults ∧
        (dt ++ "_" ++ comp ++ "_" ++ toString i) ∈
          fg.extSources.map Prod.fst)) ∧
    (isOkB (fg.get_all_patches (some dt) (some comp)) = true ↔
      ∀ j, j < fg.nsubfaults →
        (dt ∈ fg.datatypes ∧ comp ∈ fg.components ∧
          (dt ++ "_" ++ comp ++ "_" ++ toString j) ∈
            fg.extSources.map Prod.fst)) := by
  refine ⟨?_, get_subfault_isOk fg i dt comp, ?_⟩
  · unfold FaultGeometry.get_patch_indexes
    rw [check_index_eq]
    by_cases h : i < fg.nsubfaults
    · rw [if_pos h, if_pos h, except_bind_ok]
      rfl
    · rw [if_neg h, if_neg h, except_bind_error]
  · exact getAllPatchesAux_isOk fg dt comp fg.nsubfaults (le_refl _)

/-- C8 witness: in the registered example geometry, the lookups for the
registered pair succeed. -/
theorem c8_geometry_lookups_witness :
    isOkB (faultEx.get_subfault 0 (some ("seismic")) (some ("Uparr"))) = true ∧
    isOkB (faultEx.get_all_patches (some ("seismic")) (some ("Uparr"))) = true ∧
    faultEx.get_patch_indexes 0 = Except.ok (0, 4) := by
  have h := c8_geometry_lookups faultEx 0 ("seismic") ("Uparr")
  refine ⟨h.2.1.mpr (by decide), h.2.2.mpr (by decide), h.1.trans (by decide)⟩

lemma map_congr_range {β : Type} (n : ℕ) (f g : ℕ → β)
    (h : ∀ x, x < n → f x = g x) :
    (List.range n).map f = (List.range n).map g := by
  apply List.map_congr_left
  intro a ha
  exact h a (List.mem_range.mp ha)

lemma getD_map_range {β : Type} (f : ℕ → β) (n s : ℕ) (d : β) (h : s < n) :
    ((List.range n).map f).getD s d = f s := by
  rw [List.getD_eq_getElem?_getD,
    List.getElem?_eq_getElem (by simpa using h)]
  simp

lemma getD_mem_of_lt (l : List ℕ) (p : ℕ) (h : p < l.length) :
    l.getD p 0 ∈ l := by
  rw [List.getD_eq_getElem?_getD, List.getElem?_eq_getElem h]
  exact List.getElem_mem h

lemma all_lt_of_getD (l : List ℕ) (n bound : ℕ) (hlen : l.length = n)
    (h : ∀ p, p < n → l.getD p 0 < bound) :
    l.all (fun x => x < bound) = true := by
  rw [List.all_eq_true]
  intro x hx
  obtain ⟨i, hi, rfl⟩ := List.mem_iff_getElem.mp hx
  have hgi := h i (by omega)
  rw [List.getD_eq_getElem?_getD, List.getElem?_eq_getElem hi] at hgi
  simpa using hgi

lemma flatIdx_div_mod (t p s n ns : ℕ) (hp : p < n) (hs : s < ns) :
    (t * (n * ns) + p * ns + s) / (n * ns) = t ∧
    ((t * (n * ns) + p * ns + s) % (n * ns)) / ns = p ∧
    ((t * (n * ns) + p * ns + s) % (n * ns)) % ns = s := by
  have hns : 0 < ns := by omega
  have hn : 0 < n := by omega
  have hlt : p * ns + s < n * ns := by
    have h1 : p * ns + ns ≤ n * ns := by
      have : (p + 1) * ns ≤ n * ns := Nat.mul_le_mul_right ns hp
      nlinarith
    omega
  have hrw : t * (n * ns) + p * ns + s = (p * ns + s) + (n * ns) * t := by
    ring
  have hrw2 : p * ns + s = s + ns * p := by ring
  refine ⟨?_, ?_, ?_⟩
  · rw [hrw, Nat.add_mul_div_left _ _ (Nat.mul_pos hn hns),
      Nat.div_eq_of_lt hlt]
    omega
  · rw [hrw, Nat.add_mul_mod_self_left, Nat.mod_eq_of_lt hlt, hrw2,
      Nat.add_mul_div_left _ _ hns, Nat.div_eq_of_lt hs]
    omega
  · rw [hrw, Nat.add_mul_mod_self_left, Nat.mod_eq_of_lt hlt, hrw2,
      Nat.add_mul_mod_self_left, Nat.mod_eq_of_lt hs]

lemma stackAllCompute_eq (m : GFMat) (d : GFDims) (rts sts : List ℕ)
    (slips : List ℚ) :
    stackAllCompute m d d rts sts slips =
      (List.range d.ntargets).map (fun t =>
        (List.range d.nsamples).map (fun s =>
          ((List.range d.npatches).map (fun p =>
            slips.getD p 0 * m t p (rts.getD p 0) (sts.getD p 0) s)).sum)) := by
  simp only [stackAllCompute]
  apply map_congr_range
  intro t ht
  apply map_congr_range
  intro s hs
  congr 1
  apply map_congr_range
  intro p hp
  obtain ⟨e1, e2, e3⟩ :=
    flatIdx_div_mod t p s d.npatches d.nsamples hp hs
  rw [e1, e2, e3]

lemma stackCompute_single (m : GFMat) (ns tidx p r c : ℕ) (a : ℚ) :
    stackCompute m ns tidx [p] [r] [c] [a] ns =
      (List.range ns).map (fun s => a * m tidx p r c s) := by
  simp only [stackCompute]
  apply map_congr_range
  intro s hs
  have h1 : List.range 1 = [0] := rfl
  simp [h1, Nat.div_eq_of_lt hs, Nat.mod_eq_of_lt hs]

lemma mapM_ok_of_forall {α β : Type} (l : List α) (f : α → Except PyErr β)
    (g : α → β) (h : ∀ a ∈ l, f a = Except.ok (g a)) :
    l.mapM f = Except.ok (l.map g) := by
  induction l with
  | nil => rfl
  | cons a l ih =>
      rw [List.mapM_cons, h a (List.mem_cons_self a l),
        ih (fun b hb => h b (List.mem_cons_of_mem a hb))]
      rfl

lemma lastHit_spec (rts sts : List ℕ) (r c k : ℕ)
    (h : lastHit rts sts r c = some k) :
    k < rts.length ∧ rts.getD k 0 = r ∧ sts.getD k 0 = c := by
  unfold lastHit at h
  have hmem := List.mem_of_find?_eq_some h
  have hp := List.find?_some h
  rw [List.mem_reverse, List.mem_range] at hmem
  simp only [Bool.and_eq_true, beq_iff_eq] at hp
  exact ⟨hmem, hp.1, hp.2⟩

lemma stack_single_eq (lib : SeismicGFLibrary) (d : GFDims) (m mg : GFMat)
    (hs : lib.sgfmatrix = some (d, m)) (hg : lib.gfmatrix = some (d, mg))
    (hswitch : lib.switchInit = true) (hmode : lib.mode = "theano")
    (tgt t : ℕ) (htgt : lib.target_index_mapping tgt = some t)
    (ht : t < d.ntargets) (p r c : ℕ) (a : ℚ)
    (hp : p < d.npatches) (hr : r < d.nrisetimes) (hc : c < d.nstarttimes) :
    lib.stack tgt [p] [r] [c] [a] =
      Except.ok ((List.range d.nsamples).map (fun s => a * m t p r c s)) := by
  simp [SeismicGFLibrary.stack, htgt, hs, hg, hswitch, hmode, ht, hp, hr,
    hc, stackCompute_single]

/-- C2: for an initialized library (theano backend materialized over the
filled tensor), stack_all returns the (ntargets, nsamples) matrix whose row
for each target is the sum over patches of slip[p] times the selected
stored trace; and that row equals the elementwise sum over patches of the
corresponding single-patch stack results at that target. -/
theorem c2_stack_all_linear (lib : SeismicGFLibrary) (d : GFDims)
    (m mg : GFMat) (rts sts : List ℕ) (slips : List ℚ)
    (hs : lib.sgfmatrix = some (d, m)) (hg : lib.gfmatrix = some (d, mg))
    (hswitch : lib.switchInit = true) (hmode : lib.mode = "theano")
    (hrl : rts.length = d.npatches) (hstl : sts.length = d.npatches)
    (hsl : slips.length = d.npatches)
    (hrr : ∀ p, p < d.npatches → rts.getD p 0 < d.nrisetimes)
    (hsr : ∀ p, p < d.npatches → sts.getD p 0 < d.nstarttimes) :
    lib.stack_all rts sts slips =
      Except.ok ((List.range d.ntargets).map (fun t =>
        (List.range d.nsamples).map (fun s =>
          ((List.range d.npatches).map (fun p =>
            slips.getD p 0 * m t p (rts.getD p 0) (sts.getD p 0) s)).sum))) ∧
    ∀ tgt t, lib.target_index_mapping tgt = some t → t < d.ntargets →
      ((List.range d.npatches).mapM (fun p =>
          lib.stack tgt [p] [rts.getD p 0] [sts.getD p 0] [slips.getD p 0])) =
        Except.ok ((List.range d.npatches).map (fun p =>
          (List.range d.nsamples).map (fun s =>
            slips.getD p 0 * m t p (rts.getD p 0) (sts.getD p 0) s))) ∧
      sumVecs ((List.range d.npatches).map (fun p =>
          (List.range d.nsamples).map (fun s =>
            slips.getD p 0 * m t p (rts.getD p 0) (sts.getD p 0) s)))
          d.nsamples =
        (List.range d.nsamples).map (fun s =>
          ((List.range d.npatches).map (fun p =>
            slips.getD p 0 * m t p (rts.getD p 0) (sts.getD p 0) s)).sum) := by
  have hall1 : rts.all (fun r => r < d.nrisetimes) = true :=
    all_lt_of_getD rts d.npatches d.nrisetimes hrl hrr
  have hall2 : sts.all (fun c => c < d.nstarttimes) = true :=
    all_lt_of_getD sts d.npatches d.nstarttimes hstl hsr
  constructor
  · simp [SeismicGFLibrary.stack_all, hs, hg, hrl, hstl, hsl, hall1, hall2,
      stackAllCompute_eq]
  · intro tgt t htgt ht
    constructor
    · apply mapM_ok_of_forall
      intro p hp
      have hp2 : p < d.npatches := List.mem_range.mp hp
      exact stack_single_eq lib d m mg hs hg hswitch hmode tgt t htgt ht
        p (rts.getD p 0) (sts.getD p 0) (slips.getD p 0) hp2 (hrr p hp2)
        (hsr p hp2)
    · unfold sumVecs
      apply map_congr_range
      intro s hsamp
      rw [List.map_map]
      congr 1
      apply map_congr_range
      intro p hp
      exact getD_map_range _ _ _ _ hsamp

unseal Rat.add Rat.mul in
/-- C2 witness: the one-sample initialized library stacks all patches to
the zero matrix, matching the single-patch stack sum. -/
theorem c2_stack_all_linear_witness :
    libExInit.stack_all [0] [0] [1] = Except.ok [[(0 : ℚ)]] := by
  have h := c2_stack_all_linear libExInit ⟨1, 1, 1, 1, 1⟩ zeroMat zeroMat
    [0] [0] [1] rfl rfl rfl rfl rfl rfl rfl (by decide) (by decide)
  exact h.1.trans (by decide)

/-- C4: once init_optimization has wrapped the filled tensor, the eager
numpy backend and the lazy theano backend compute identical stacks for
identical inputs (in the exact rational model of the float arithmetic);
and after repeating the round-trip put with the values the tensor already
holds, the two backends still agree on every stack. -/
theorem c4_backend_equivalence (lib lib1 : SeismicGFLibrary) (d : GFDims)
    (m : GFMat) (hg : lib.gfmatrix = some (d, m))
    (hinit : lib.init_optimization = Except.ok lib1) :
    (∀ lib2, lib1.set_stack_mode ("numpy") = Except.ok lib2 →
      ∀ tgt ps rts sts slips,
        lib2.stack tgt ps rts sts slips = lib1.stack tgt ps rts sts slips) ∧
    (∀ e tgt pidx rts sts tidx lib3,
      lib1.target_index_mapping tgt = some tidx →
      lib1.put e tgt pidx rts sts = Except.ok lib3 →
      (∀ k, k < rts.length → ∀ s,
        e.get k s = m tidx pidx (rts.getD k 0) (sts.getD k 0) s) →
      ∀ lib4, lib3.set_stack_mode ("numpy") = Except.ok lib4 →
        ∀ tgt2 ps2 rts2 sts2 slips2,
          lib4.stack tgt2 ps2 rts2 sts2 slips2 =
            lib3.stack tgt2 ps2 rts2 sts2 slips2) := by
  simp only [SeismicGFLibrary.init_optimization, hg] at hinit
  injection hinit with h1
  subst h1
  constructor
  · intro lib2 h2 tgt ps rts sts slips
    simp only [SeismicGFLibrary.set_stack_mode] at h2
    rw [if_neg (by simp)] at h2
    rw [if_neg (by simp)] at h2
    injection h2 with h2
    subst h2
    rfl
  · intro e tgt pidx rts sts tidx lib3 htgt hput hrep lib4 h4 tgt2 ps2 rts2
      sts2 slips2
    have hW : writeBatch m tidx pidx rts sts e = m := by
      funext t' p' r' c' s'
      unfold writeBatch
      by_cases hcond : t' = tidx ∧ p' = pidx
      · rw [if_pos hcond]
        cases hl : lastHit rts sts r' c' with
        | none => rfl
        | some k =>
            obtain ⟨hk, hr2, hc2⟩ := lastHit_spec rts sts r' c' k hl
            show e.get k s' = m t' p' r' c' s'
            rw [hrep k hk s', hr2, hc2, hcond.1, hcond.2]
      · rw [if_neg hcond]
    simp only [SeismicGFLibrary.put, htgt] at hput
    rw [hW] at hput
    split_ifs at hput
    injection hput with h3
    subst h3
    simp only [SeismicGFLibrary.set_stack_mode] at h4
    rw [if_neg (by simp)] at h4
    rw [if_neg (by simp)] at h4
    injection h4 with h4
    subst h4
    rfl

/-- C4 witness: on the initialized one-sample library, switching to the
numpy backend and stacking gives the same answer as the theano backend. -/
theorem c4_backend_equivalence_witness :
    libExInit.set_stack_mode ("numpy") = Except.ok libExNumpy ∧
    libExNumpy.stack 7 [0] [0] [0] [1] =
      libExInit.stack 7 [0] [0] [0] [1] := by
  have h := c4_backend_equivalence libExSized libExInit ⟨1, 1, 1, 1, 1⟩
    zeroMat rfl rfl
  have hmode : libExInit.set_stack_mode ("numpy") = Except.ok libExNumpy := rfl
  exact ⟨hmode, h.1 libExNumpy hmode 7 [0] [0] [0] [1]⟩
